import Mathlib

/-!
Shallow embedding of the Amazon FreeRTOS Wi-Fi adapter for the TI CC3220
SimpleLink launchpad, `lib/wifi/portable/ti/cc3220_launchpad/aws_wifi.c`.

The file is a thin shim: each public WIFI_ function forwards to vendor SDK
entry points (sl_* and Network_IF_* functions), most of them while holding a
binary semaphore.  We model the module state (the two globals
`xWIFIInitDone` and `xWiFiSemaphoreHandle`), the semaphore protocol and the
SDK call sequence of every operation as pure Lean functions.  The results of
SDK calls and of the semaphore take (which may time out because of other
tasks) are supplied by per-operation environment records, so every operation
is a function of the module state, the environment, and its inputs, and
returns its status code, the new module state, the trace of semaphore and
SDK events it performed, and its out-parameters.
-/

/-- WIFIReturnCode_t from aws_wifi.h (V1.x): exactly these four enumerators. -/
inductive WIFIReturnCode where
  | eWiFiSuccess
  | eWiFiFailure
  | eWiFiTimeout
  | eWiFiNotSupported
deriving DecidableEq, Repr, Inhabited

open WIFIReturnCode

/-- WIFISecurity_t from aws_wifi.h. -/
inductive WIFISecurity where
  | eWiFiSecurityOpen
  | eWiFiSecurityWEP
  | eWiFiSecurityWPA
  | eWiFiSecurityWPA2
  | eWiFiSecurityNotSupported
deriving DecidableEq, Repr, Inhabited

/-- WIFIDeviceMode_t from aws_wifi.h. -/
inductive WIFIDeviceMode where
  | eWiFiModeStation
  | eWiFiModeAP
  | eWiFiModeP2P
  | eWiFiModeNotSupported
deriving DecidableEq, Repr, Inhabited

/-- WIFIPMMode_t from aws_wifi.h. -/
inductive WIFIPMMode where
  | eWiFiPMNormal
  | eWiFiPMLowPower
  | eWiFiPMAlwaysOn
  | eWiFiPMNotSupported
deriving DecidableEq, Repr, Inhabited

/-- Modelled from the spec: the TI SimpleLink SDK header wlan.h is not part
of this repository slice; this is the SDK value of SL_WLAN_SEC_TYPE_OPEN. -/
def SL_WLAN_SEC_TYPE_OPEN : Nat := 0

/-- Modelled from the spec: SDK value of SL_WLAN_SEC_TYPE_WEP (wlan.h). -/
def SL_WLAN_SEC_TYPE_WEP : Nat := 1

/-- Modelled from the spec: SDK value of SL_WLAN_SEC_TYPE_WPA (wlan.h).  The
constant is deprecated in SimpleLink and shares the value 2 with
SL_WLAN_SEC_TYPE_WPA_WPA2, which is why prvConvertSecurityTIToAbstracted in
the source keeps its SL_WLAN_SEC_TYPE_WPA case commented out (a second case
with the same value would not compile). -/
def SL_WLAN_SEC_TYPE_WPA : Nat := 2

/-- Modelled from the spec: SDK value of SL_WLAN_SEC_TYPE_WPA_WPA2 (wlan.h),
the same numeric value as the deprecated SL_WLAN_SEC_TYPE_WPA. -/
def SL_WLAN_SEC_TYPE_WPA_WPA2 : Nat := 2

/-- Modelled from the spec: wificonfigSEC_TYPE_UNKNOWN from the board config
header aws_wifi_config.h (not under src/); a sentinel distinct from every
SL_WLAN_SEC_TYPE_* value used by this file. -/
def wificonfigSEC_TYPE_UNKNOWN : Nat := 255

/-- Modelled from the spec: wificonfigMAX_SSID_LEN from aws_wifi_config.h. -/
def wificonfigMAX_SSID_LEN : Nat := 32

/-- Modelled from the spec: wificonfigMAX_PASSPHRASE_LEN from aws_wifi_config.h. -/
def wificonfigMAX_PASSPHRASE_LEN : Nat := 32

/-- Modelled from the spec: wificonfigMAX_BSSID_LEN from aws_wifi_config.h. -/
def wificonfigMAX_BSSID_LEN : Nat := 6

/-- General negative error generated by logic in aws_wifi.c (line 57). -/
def wifiGENERAL_INTERNAL_ERROR : Int := -1

/-- Modelled from the spec: SlWlanMode_e value ROLE_STA (wlan.h). -/
def ROLE_STA : Int := 0

/-- Modelled from the spec: SlWlanMode_e value ROLE_RESERVED (wlan.h). -/
def ROLE_RESERVED : Int := 1

/-- Modelled from the spec: SlWlanMode_e value ROLE_AP (wlan.h). -/
def ROLE_AP : Int := 2

/-- Modelled from the spec: SlWlanMode_e value ROLE_P2P (wlan.h). -/
def ROLE_P2P : Int := 3

/-- Modelled from the spec: SDK power-management policy SL_WLAN_NORMAL_POLICY. -/
def SL_WLAN_NORMAL_POLICY : Nat := 0

/-- Modelled from the spec: SDK power-management policy SL_WLAN_LOW_POWER_POLICY. -/
def SL_WLAN_LOW_POWER_POLICY : Nat := 2

/-- Modelled from the spec: SDK power-management policy SL_WLAN_ALWAYS_ON_POLICY. -/
def SL_WLAN_ALWAYS_ON_POLICY : Nat := 3

/-- prvConvertSecurityAbstractedToTI (aws_wifi.c lines 161-185): the local
variable starts at wificonfigSEC_TYPE_UNKNOWN and the switch overwrites it
for the four supported abstracted types. -/
def prvConvertSecurityAbstractedToTI : WIFISecurity → Nat
  | .eWiFiSecurityOpen => SL_WLAN_SEC_TYPE_OPEN
  | .eWiFiSecurityWEP => SL_WLAN_SEC_TYPE_WEP
  | .eWiFiSecurityWPA => SL_WLAN_SEC_TYPE_WPA
  | .eWiFiSecurityWPA2 => SL_WLAN_SEC_TYPE_WPA_WPA2
  | .eWiFiSecurityNotSupported => wificonfigSEC_TYPE_UNKNOWN

/-- prvConvertSecurityTIToAbstracted (aws_wifi.c lines 189-218): switch on
the TI byte with cases OPEN, WEP and WPA_WPA2 (the WPA case is commented out
in the source because WPA is deprecated), defaulting to
eWiFiSecurityNotSupported. -/
def prvConvertSecurityTIToAbstracted (ucSecurity : Nat) : WIFISecurity :=
  if ucSecurity = SL_WLAN_SEC_TYPE_OPEN then .eWiFiSecurityOpen
  else if ucSecurity = SL_WLAN_SEC_TYPE_WEP then .eWiFiSecurityWEP
  else if ucSecurity = SL_WLAN_SEC_TYPE_WPA_WPA2 then .eWiFiSecurityWPA2
  else .eWiFiSecurityNotSupported

/-- prvConvertRoleAbstractedToTI (aws_wifi.c lines 222-242): the local
variable starts at ROLE_RESERVED and the switch overwrites it for the three
supported modes. -/
def prvConvertRoleAbstractedToTI : WIFIDeviceMode → Int
  | .eWiFiModeStation => ROLE_STA
  | .eWiFiModeAP => ROLE_AP
  | .eWiFiModeP2P => ROLE_P2P
  | .eWiFiModeNotSupported => ROLE_RESERVED

/-- prvConvertRoleTypeTIToAbstracted (aws_wifi.c lines 246-266). -/
def prvConvertRoleTypeTIToAbstracted (xDeviceMode : Int) : WIFIDeviceMode :=
  if xDeviceMode = ROLE_STA then .eWiFiModeStation
  else if xDeviceMode = ROLE_AP then .eWiFiModeAP
  else if xDeviceMode = ROLE_P2P then .eWiFiModeP2P
  else .eWiFiModeNotSupported

/-- WIFINetworkParams_t: SSID and password buffers as byte lists with
separate length bytes, as in aws_wifi.h. -/
structure WIFINetworkParams where
  pcSSID : List Nat
  ucSSIDLength : Nat
  pcPassword : List Nat
  ucPasswordLength : Nat
  xSecurity : WIFISecurity
  cChannel : Nat
deriving DecidableEq, Repr, Inhabited

/-- WIFINetworkProfile_t from aws_wifi.h. -/
structure WIFINetworkProfile where
  cSSID : List Nat
  ucSSIDLength : Nat
  cPassword : List Nat
  ucPasswordLength : Nat
  ucBSSID : List Nat
  xSecurity : WIFISecurity
deriving DecidableEq, Repr, Inhabited

/-- WIFIScanResult_t from aws_wifi.h. -/
structure WIFIScanResult where
  cSSID : List Nat
  ucBSSID : List Nat
  cChannel : Nat
  cRSSI : Int
  xSecurity : WIFISecurity
  ucHidden : Nat
deriving DecidableEq, Repr, Inhabited

/-- SlWlanNetworkEntry_t: one scan result as delivered by
sl_WlanGetNetworkList. -/
structure SlWlanNetworkEntry where
  Ssid : List Nat
  Bssid : List Nat
  Channel : Nat
  Rssi : Int
  SecurityInfo : Nat
deriving DecidableEq, Repr, Inhabited

/-- Modelled from the spec: scan-result macro
SL_WLAN_SCAN_RESULT_SEC_TYPE_BITMAP (wlan.h), the low bits of SecurityInfo. -/
def SL_WLAN_SCAN_RESULT_SEC_TYPE_BITMAP (securityInfo : Nat) : Nat :=
  securityInfo % 8

/-- Modelled from the spec: scan-result macro SL_WLAN_SCAN_RESULT_HIDDEN_SSID
(wlan.h), the hidden-SSID bit of SecurityInfo. -/
def SL_WLAN_SCAN_RESULT_HIDDEN_SSID (securityInfo : Nat) : Nat :=
  securityInfo / 8 % 2

/-- SL_IPV4_BYTE(val, index): byte extraction used by WIFI_GetIP and
WIFI_GetHostIP. -/
def SL_IPV4_BYTE (val : Nat) (index : Nat) : Nat :=
  val / 256 ^ index % 256

/-- The module's own global state: the init flag xWIFIInitDone (aws_wifi.c
line 67) and whether xWiFiSemaphoreHandle (line 62) holds a non-NULL
semaphore. -/
structure WifiState where
  xWIFIInitDone : Bool
  semaphoreCreated : Bool
deriving DecidableEq, Repr, Inhabited

/-- The vendor SDK entry points (sl_* and Network_IF_* functions) that
aws_wifi.c invokes. -/
inductive SdkFn where
  | sl_Start
  | sl_Stop
  | sl_WlanPolicySet
  | sl_WlanPolicyGet
  | sl_WlanSetMode
  | sl_WlanGet
  | sl_WlanSet
  | sl_WlanProfileAdd
  | sl_WlanProfileGet
  | sl_WlanProfileDel
  | sl_NetCfgGet
  | sl_WlanGetNetworkList
  | Network_IF_ResetMCUStateMachine
  | Network_IF_InitDriver
  | Network_IF_DeInitDriver
  | Network_IF_DisconnectFromAP
  | Network_IF_ConnectAP
  | Network_IF_IpConfigGet
  | Network_IF_CurrentMCUState
deriving DecidableEq, Repr

/-- Observable events of one operation: creating the binary semaphore,
taking it (with the outcome of the wait), giving it, and calling an SDK
entry point. -/
inductive Event where
  | semCreate
  | semTake (ok : Bool)
  | semGive
  | sdk (f : SdkFn)
deriving DecidableEq, Repr

/-- Result of one adapter operation: the WIFIReturnCode_t it returns, the
module state on exit, the event trace, and the final value of its
caller-supplied out-parameters. -/
structure OpResult (α : Type) where
  ret : WIFIReturnCode
  state : WifiState
  events : List Event
  out : α
deriving DecidableEq, Repr

/-- Environment of WIFI_On: whether xSemaphoreCreateBinaryStatic returns a
handle, whether pthread_create of the sl_Task thread succeeds, and the
sl_Start and sl_Stop return codes seen by prvResetNetworkCPU. -/
structure OnEnv where
  semCreateOk : Bool
  slTaskCreateOk : Bool
  slStartRet : Int
  slStopRet : Int
deriving DecidableEq, Repr, Inhabited

/-- Environment of WIFI_Off: the sl_Stop return code. -/
structure OffEnv where
  slStopRet : Int
deriving DecidableEq, Repr, Inhabited

/-- Environment of WIFI_ConnectAP: the semaphore wait outcome and the
Network_IF_ConnectAP return code. -/
structure ConnectEnv where
  takeOk : Bool
  connectRet : Int
deriving DecidableEq, Repr, Inhabited

/-- Environment of WIFI_Disconnect: the semaphore wait outcome and the
Network_IF_DisconnectFromAP return code (the latter only drives logging). -/
structure DisconnectEnv where
  takeOk : Bool
  disconnectRet : Int
deriving DecidableEq, Repr, Inhabited

/-- Environment of WIFI_Reset: the semaphore wait outcome and the
Network_IF_InitDriver return code. -/
structure ResetEnv where
  takeOk : Bool
  initDriverRet : Int
deriving DecidableEq, Repr, Inhabited

/-- Environment of WIFI_SetMode: the semaphore wait outcome and the role
reported by sl_Start after the mode change. -/
structure SetModeEnv where
  takeOk : Bool
  slStartRet : Int
deriving DecidableEq, Repr, Inhabited

/-- Environment of WIFI_GetMode: the semaphore wait outcome and the Mode
field of the SlWlanConnStatusParam_t filled in by sl_WlanGet. -/
structure GetModeEnv where
  takeOk : Bool
  connectionMode : Int
deriving DecidableEq, Repr, Inhabited

/-- Environment of WIFI_NetworkAdd: the semaphore wait outcome and the
sl_WlanProfileAdd return code (index on success, negative on error). -/
structure NetworkAddEnv where
  takeOk : Bool
  profileAddRet : Int
deriving DecidableEq, Repr, Inhabited

/-- Environment of WIFI_NetworkGet: the semaphore wait outcome, the
sl_WlanProfileGet return code, and the profile data the SDK writes into the
caller's buffers (SSID bytes and length, BSSID bytes, TI security type). -/
structure NetworkGetEnv where
  takeOk : Bool
  profileGetRet : Int
  slSSID : List Nat
  slSSIDLength : Nat
  slBSSID : List Nat
  slSecType : Nat
deriving DecidableEq, Repr, Inhabited

/-- Environment of WIFI_NetworkDelete: the semaphore wait outcome and the
sl_WlanProfileDel return code. -/
structure NetworkDeleteEnv where
  takeOk : Bool
  profileDelRet : Int
deriving DecidableEq, Repr, Inhabited

/-- Environment of WIFI_GetIP: the Network_IF_IpConfigGet return code and the
IP address it reports. -/
structure GetIPEnv where
  ipConfigRet : Int
  ipAddr : Nat
deriving DecidableEq, Repr, Inhabited

/-- Environment of WIFI_GetMAC: the sl_NetCfgGet return code and the MAC
bytes it reports. -/
structure GetMACEnv where
  netCfgRet : Int
  macAddr : List Nat
deriving DecidableEq, Repr, Inhabited

/-- Environment of WIFI_GetHostIP: the address returned by
SOCKETS_GetHostByName (0 on failure). -/
structure GetHostIPEnv where
  hostIP : Nat
deriving DecidableEq, Repr, Inhabited

/-- Environment of WIFI_Scan: the semaphore wait outcome, the
sl_WlanPolicySet return codes for starting and stopping the scan, whether
pvPortMalloc succeeds, and the network list written by
sl_WlanGetNetworkList. -/
structure ScanEnv where
  takeOk : Bool
  scanStartRet : Int
  scanStopRet : Int
  mallocOk : Bool
  networkList : List SlWlanNetworkEntry
deriving DecidableEq, Repr, Inhabited

/-- Environment of WIFI_ConfigureAP: the semaphore wait outcome and the four
sl_WlanSet return codes (SSID, channel, security type, password). -/
structure ConfigureAPEnv where
  takeOk : Bool
  setSSIDRet : Int
  setChannelRet : Int
  setSecurityRet : Int
  setPasswordRet : Int
deriving DecidableEq, Repr, Inhabited

/-- Environment of WIFI_SetPMMode: the semaphore wait outcome and the
sl_WlanPolicySet return code. -/
structure SetPMModeEnv where
  takeOk : Bool
  policySetRet : Int
deriving DecidableEq, Repr, Inhabited

/-- Environment of WIFI_GetPMMode: the semaphore wait outcome, the
sl_WlanPolicyGet return code and the policy byte it reports. -/
structure GetPMModeEnv where
  takeOk : Bool
  policyGetRet : Int
  policy : Nat
deriving DecidableEq, Repr, Inhabited

/-- Environment of WIFI_IsConnected: whether IS_CONNECTED holds of the MCU
state returned by Network_IF_CurrentMCUState. -/
structure IsConnectedEnv where
  connected : Bool
deriving DecidableEq, Repr, Inhabited

/-- prvCreateSLTask (aws_wifi.c lines 270-308): spawns the sl_Task thread
with pthread_create; succeeds exactly when pthread_create returns 0.  The
spawned thread itself is asynchronous and is not part of the event trace. -/
def prvCreateSLTask (slTaskCreateOk : Bool) : WIFIReturnCode :=
  if slTaskCreateOk then eWiFiSuccess else eWiFiFailure

/-- prvResetNetworkCPU (aws_wifi.c lines 312-345): sl_Start, then sl_Stop if
the start succeeded. -/
def prvResetNetworkCPU (slStartRet slStopRet : Int) : WIFIReturnCode × List Event :=
  if slStartRet < 0 then
    (eWiFiFailure, [Event.sdk .sl_Start])
  else if slStopRet ≠ 0 then
    (eWiFiFailure, [Event.sdk .sl_Start, Event.sdk .sl_Stop])
  else
    (eWiFiSuccess, [Event.sdk .sl_Start, Event.sdk .sl_Stop])

/-- prvStartScan (aws_wifi.c lines 349-372): one sl_WlanPolicySet call,
success exactly when it returns 0. -/
def prvStartScan (policySetRet : Int) : WIFIReturnCode × List Event :=
  if policySetRet = 0 then
    (eWiFiSuccess, [Event.sdk .sl_WlanPolicySet])
  else
    (eWiFiFailure, [Event.sdk .sl_WlanPolicySet])

/-- prvStopScan (aws_wifi.c lines 376-398): one sl_WlanPolicySet call,
success exactly when it returns 0. -/
def prvStopScan (policySetRet : Int) : WIFIReturnCode × List Event :=
  if policySetRet = 0 then
    (eWiFiSuccess, [Event.sdk .sl_WlanPolicySet])
  else
    (eWiFiFailure, [Event.sdk .sl_WlanPolicySet])

/-- WIFI_On (aws_wifi.c lines 403-445).  When xWIFIInitDone is still pdFALSE
it creates the binary semaphore, gives it once, and spawns the sl_Task
thread, setting xWIFIInitDone only if the spawn succeeded.  It then
unconditionally resets the network processor and, on success, resets the MCU
state machine and re-initializes the driver in station mode.  No semaphore
is taken anywhere in this function. -/
def WIFI_On (st : WifiState) (env : OnEnv) : OpResult Unit :=
  let stInit :=
    if st.xWIFIInitDone = false then
      if env.semCreateOk then
        ({ xWIFIInitDone := env.slTaskCreateOk, semaphoreCreated := true },
          [Event.semCreate, Event.semGive])
      else
        ({ st with semaphoreCreated := false }, [Event.semCreate])
    else
      (st, [])
  let reset := prvResetNetworkCPU env.slStartRet env.slStopRet
  if reset.1 = eWiFiSuccess then
    { ret := reset.1, state := stInit.1,
      events := stInit.2 ++ reset.2 ++
        [Event.sdk .Network_IF_ResetMCUStateMachine, Event.sdk .Network_IF_InitDriver],
      out := () }
  else
    { ret := reset.1, state := stInit.1, events := stInit.2 ++ reset.2, out := () }

/-- WIFI_Off (aws_wifi.c lines 448-466): disconnects from the AP and stops
the SimpleLink host without taking the semaphore. -/
def WIFI_Off (st : WifiState) (env : OffEnv) : OpResult Unit :=
  if env.slStopRet = 0 then
    { ret := eWiFiSuccess, state := st,
      events := [Event.sdk .Network_IF_DisconnectFromAP, Event.sdk .sl_Stop,
        Event.sdk .Network_IF_ResetMCUStateMachine],
      out := () }
  else
    { ret := eWiFiFailure, state := st,
      events := [Event.sdk .Network_IF_DisconnectFromAP, Event.sdk .sl_Stop],
      out := () }

/-- WIFI_ConnectAP (aws_wifi.c lines 470-533). -/
def WIFI_ConnectAP (st : WifiState) (env : ConnectEnv)
    (pxNetworkParams : WIFINetworkParams) : OpResult Unit :=
  if env.takeOk then
    let attempt :=
      if pxNetworkParams.ucSSIDLength ≤ wificonfigMAX_SSID_LEN then
        if prvConvertSecurityAbstractedToTI pxNetworkParams.xSecurity ≠
            wificonfigSEC_TYPE_UNKNOWN then
          (env.connectRet, [Event.sdk .Network_IF_ConnectAP])
        else
          (wifiGENERAL_INTERNAL_ERROR, ([] : List Event))
      else
        (wifiGENERAL_INTERNAL_ERROR, ([] : List Event))
    { ret := if attempt.1 ≠ 0 then eWiFiFailure else eWiFiSuccess,
      state := st,
      events := Event.semTake true :: attempt.2 ++ [Event.semGive],
      out := () }
  else
    { ret := eWiFiTimeout, state := st, events := [Event.semTake false], out := () }

/-- WIFI_Disconnect (aws_wifi.c lines 537-565): always returns eWiFiSuccess
once the semaphore is obtained (the Network_IF_DisconnectFromAP result only
selects a log message). -/
def WIFI_Disconnect (st : WifiState) (env : DisconnectEnv) : OpResult Unit :=
  if env.takeOk then
    { ret := eWiFiSuccess, state := st,
      events := [Event.semTake true, Event.sdk .Network_IF_DisconnectFromAP,
        Event.semGive],
      out := () }
  else
    { ret := eWiFiTimeout, state := st, events := [Event.semTake false], out := () }

/-- WIFI_Reset (aws_wifi.c lines 569-601). -/
def WIFI_Reset (st : WifiState) (env : ResetEnv) : OpResult Unit :=
  if env.takeOk then
    { ret := if env.initDriverRet ≠ 0 then eWiFiFailure else eWiFiSuccess,
      state := st,
      events := [Event.semTake true, Event.sdk .Network_IF_ResetMCUStateMachine,
        Event.sdk .Network_IF_DeInitDriver, Event.sdk .Network_IF_InitDriver,
        Event.semGive],
      out := () }
  else
    { ret := eWiFiTimeout, state := st, events := [Event.semTake false], out := () }

/-- WIFI_SetMode (aws_wifi.c lines 606-654).  An abstracted mode that
converts to ROLE_RESERVED fails before the semaphore is even attempted.
The busy-wait for IP acquisition in AP mode is a real-time loop modelled as
terminating. -/
def WIFI_SetMode (st : WifiState) (env : SetModeEnv)
    (xDeviceMode : WIFIDeviceMode) : OpResult Unit :=
  let lDeviceMode := prvConvertRoleAbstractedToTI xDeviceMode
  if lDeviceMode = ROLE_RESERVED then
    { ret := eWiFiFailure, state := st, events := [], out := () }
  else if env.takeOk then
    { ret := if env.slStartRet ≠ lDeviceMode then eWiFiFailure else eWiFiSuccess,
      state := st,
      events := [Event.semTake true, Event.sdk .sl_WlanSetMode,
        Event.sdk .sl_Stop, Event.sdk .sl_Start, Event.semGive],
      out := () }
  else
    { ret := eWiFiTimeout, state := st, events := [Event.semTake false], out := () }

/-- WIFI_GetMode (aws_wifi.c lines 657-696).  The sl_WlanGet return code is
not checked by the source; the reported mode is converted and the call fails
exactly when the conversion yields eWiFiModeNotSupported. -/
def WIFI_GetMode (st : WifiState) (env : GetModeEnv)
    (deviceModeIn : WIFIDeviceMode) : OpResult WIFIDeviceMode :=
  if env.takeOk then
    let m := prvConvertRoleTypeTIToAbstracted env.connectionMode
    { ret := if m = WIFIDeviceMode.eWiFiModeNotSupported then eWiFiFailure
        else eWiFiSuccess,
      state := st,
      events := [Event.semTake true, Event.sdk .sl_WlanGet, Event.semGive],
      out := m }
  else
    { ret := eWiFiTimeout, state := st, events := [Event.semTake false],
      out := deviceModeIn }

/-- WIFI_NetworkAdd (aws_wifi.c lines 700-756).  A security type that
converts to wificonfigSEC_TYPE_UNKNOWN skips the SDK call with an internal
error; otherwise the sl_WlanProfileAdd result (negative on failure, the
profile index otherwise) decides the status and the out-parameter. -/
def WIFI_NetworkAdd (st : WifiState) (env : NetworkAddEnv)
    (pxNetworkProfile : WIFINetworkProfile) (indexIn : Nat) : OpResult Nat :=
  if env.takeOk then
    let attempt :=
      if prvConvertSecurityAbstractedToTI pxNetworkProfile.xSecurity ≠
          wificonfigSEC_TYPE_UNKNOWN then
        (env.profileAddRet, [Event.sdk .sl_WlanProfileAdd])
      else
        (wifiGENERAL_INTERNAL_ERROR, ([] : List Event))
    if attempt.1 < 0 then
      { ret := eWiFiFailure, state := st,
        events := Event.semTake true :: attempt.2 ++ [Event.semGive],
        out := indexIn }
    else
      { ret := eWiFiSuccess, state := st,
        events := Event.semTake true :: attempt.2 ++ [Event.semGive],
        out := attempt.1.toNat }
  else
    { ret := eWiFiTimeout, state := st, events := [Event.semTake false],
      out := indexIn }

/-- WIFI_NetworkGet (aws_wifi.c lines 760-807).  sl_WlanProfileGet writes
the SSID and BSSID buffers of the caller's profile; on success the source
additionally stores the SSID length, the converted security type and sets
ucPasswordLength to 0 because the password is not returned.  The cPassword
buffer is never written. -/
def WIFI_NetworkGet (st : WifiState) (env : NetworkGetEnv)
    (profileIn : WIFINetworkProfile) (usIndex : Nat) : OpResult WIFINetworkProfile :=
  if env.takeOk then
    if env.profileGetRet < 0 then
      { ret := eWiFiFailure, state := st,
        events := [Event.semTake true, Event.sdk .sl_WlanProfileGet, Event.semGive],
        out := { profileIn with cSSID := env.slSSID, ucBSSID := env.slBSSID } }
    else
      { ret := eWiFiSuccess, state := st,
        events := [Event.semTake true, Event.sdk .sl_WlanProfileGet, Event.semGive],
        out := { cSSID := env.slSSID, ucSSIDLength := env.slSSIDLength,
                 cPassword := profileIn.cPassword, ucPasswordLength := 0,
                 ucBSSID := env.slBSSID,
                 xSecurity := prvConvertSecurityTIToAbstracted env.slSecType } }
  else
    { ret := eWiFiTimeout, state := st, events := [Event.semTake false],
      out := profileIn }

/-- WIFI_NetworkDelete (aws_wifi.c lines 811-842). -/
def WIFI_NetworkDelete (st : WifiState) (env : NetworkDeleteEnv)
    (usIndex : Nat) : OpResult Unit :=
  if env.takeOk then
    { ret := if env.profileDelRet ≠ 0 then eWiFiFailure else eWiFiSuccess,
      state := st,
      events := [Event.semTake true, Event.sdk .sl_WlanProfileDel, Event.semGive],
      out := () }
  else
    { ret := eWiFiTimeout, state := st, events := [Event.semTake false], out := () }

/-- WIFI_Ping (aws_wifi.c lines 846-853): unconditionally unsupported, no
SDK call, no write to the caller's buffer. -/
def WIFI_Ping (st : WifiState) (pucIPAddr : List Nat) (usCount : Nat)
    (ulIntervalMS : Nat) : OpResult (List Nat) :=
  { ret := eWiFiNotSupported, state := st, events := [], out := pucIPAddr }

/-- WIFI_GetIP (aws_wifi.c lines 857-889): no semaphore; on success the four
bytes of the IP address overwrite the head of the caller's buffer. -/
def WIFI_GetIP (st : WifiState) (env : GetIPEnv) (bufIn : List Nat) :
    OpResult (List Nat) :=
  if env.ipConfigRet ≠ 0 then
    { ret := eWiFiFailure, state := st,
      events := [Event.sdk .Network_IF_IpConfigGet], out := bufIn }
  else
    { ret := eWiFiSuccess, state := st,
      events := [Event.sdk .Network_IF_IpConfigGet],
      out := [SL_IPV4_BYTE env.ipAddr 3, SL_IPV4_BYTE env.ipAddr 2,
        SL_IPV4_BYTE env.ipAddr 1, SL_IPV4_BYTE env.ipAddr 0] ++ bufIn.drop 4 }

/-- WIFI_GetMAC (aws_wifi.c lines 893-919): no semaphore; on success the six
MAC bytes overwrite the head of the caller's buffer. -/
def WIFI_GetMAC (st : WifiState) (env : GetMACEnv) (bufIn : List Nat) :
    OpResult (List Nat) :=
  if env.netCfgRet ≠ 0 then
    { ret := eWiFiFailure, state := st, events := [Event.sdk .sl_NetCfgGet],
      out := bufIn }
  else
    { ret := eWiFiSuccess, state := st, events := [Event.sdk .sl_NetCfgGet],
      out := env.macAddr.take wificonfigMAX_BSSID_LEN ++
        bufIn.drop wificonfigMAX_BSSID_LEN }

/-- WIFI_GetHostIP (aws_wifi.c lines 923-948).  SOCKETS_GetHostByName is the
secure-sockets layer, not an sl_ or Network_IF_ entry point, so no SDK event
is recorded. -/
def WIFI_GetHostIP (st : WifiState) (env : GetHostIPEnv) (pxHost : List Nat)
    (bufIn : List Nat) : OpResult (List Nat) :=
  if env.hostIP = 0 then
    { ret := eWiFiFailure, state := st, events := [], out := bufIn }
  else
    { ret := eWiFiSuccess, state := st, events := [],
      out := [SL_IPV4_BYTE env.hostIP 3, SL_IPV4_BYTE env.hostIP 2,
        SL_IPV4_BYTE env.hostIP 1, SL_IPV4_BYTE env.hostIP 0] ++ bufIn.drop 4 }

/-- Conversion of one sl_WlanGetNetworkList entry into the abstracted scan
result, as performed by the loop body of WIFI_Scan (aws_wifi.c lines
992-1010): SSID truncated by strncpy to wificonfigMAX_SSID_LEN, BSSID to
wificonfigMAX_BSSID_LEN, security via the bitmap conversion. -/
def prvScanEntryToResult (e : SlWlanNetworkEntry) : WIFIScanResult :=
  { cSSID := e.Ssid.take wificonfigMAX_SSID_LEN,
    ucBSSID := e.Bssid.take wificonfigMAX_BSSID_LEN,
    cChannel := e.Channel,
    cRSSI := e.Rssi,
    xSecurity := prvConvertSecurityTIToAbstracted
      (SL_WLAN_SCAN_RESULT_SEC_TYPE_BITMAP e.SecurityInfo),
    ucHidden := SL_WLAN_SCAN_RESULT_HIDDEN_SSID e.SecurityInfo }

/-- WIFI_Scan (aws_wifi.c lines 952-1029): start the scan policy, wait, stop
it, then read the network list into a heap buffer and translate the first
ucNumNetworks entries into the caller's buffer. -/
def WIFI_Scan (st : WifiState) (env : ScanEnv) (bufIn : List WIFIScanResult)
    (ucNumNetworks : Nat) : OpResult (List WIFIScanResult) :=
  if env.takeOk then
    let started := prvStartScan env.scanStartRet
    let stopped :=
      if started.1 = eWiFiSuccess then prvStopScan env.scanStopRet
      else (started.1, ([] : List Event))
    if stopped.1 = eWiFiSuccess then
      if env.mallocOk then
        { ret := stopped.1, state := st,
          events := Event.semTake true :: started.2 ++ stopped.2 ++
            [Event.sdk .sl_WlanGetNetworkList, Event.semGive],
          out := ((List.range ucNumNetworks).map fun i =>
              prvScanEntryToResult (env.networkList.getD i default)) ++
            bufIn.drop ucNumNetworks }
      else
        { ret := eWiFiFailure, state := st,
          events := Event.semTake true :: started.2 ++ stopped.2 ++ [Event.semGive],
          out := bufIn }
    else
      { ret := stopped.1, state := st,
        events := Event.semTake true :: started.2 ++ stopped.2 ++ [Event.semGive],
        out := bufIn }
  else
    { ret := eWiFiTimeout, state := st, events := [Event.semTake false],
      out := bufIn }

/-- WIFI_StartAP (aws_wifi.c lines 1033-1039): unconditionally unsupported. -/
def WIFI_StartAP (st : WifiState) : OpResult Unit :=
  { ret := eWiFiNotSupported, state := st, events := [], out := () }

/-- WIFI_StopAP (aws_wifi.c lines 1043-1048): unconditionally unsupported. -/
def WIFI_StopAP (st : WifiState) : OpResult Unit :=
  { ret := eWiFiNotSupported, state := st, events := [], out := () }

/-- WIFI_ConfigureAP (aws_wifi.c lines 1051-1167): four chained sl_WlanSet
calls (SSID, channel, security type, password), each attempted only while
the running sRetCode is still 0; an over-long SSID or password substitutes
the internal error code instead of calling the SDK.  The final status is
failure exactly when the chain stopped with a nonzero code. -/
def WIFI_ConfigureAP (st : WifiState) (env : ConfigureAPEnv)
    (pxNetworkParams : WIFINetworkParams) : OpResult Unit :=
  if env.takeOk then
    let s1 :=
      if pxNetworkParams.ucSSIDLength > wificonfigMAX_SSID_LEN then
        (wifiGENERAL_INTERNAL_ERROR, ([] : List Event))
      else
        (env.setSSIDRet, [Event.sdk .sl_WlanSet])
    let s2 :=
      if s1.1 = 0 then (env.setChannelRet, [Event.sdk .sl_WlanSet])
      else (s1.1, ([] : List Event))
    let s3 :=
      if s2.1 = 0 then (env.setSecurityRet, [Event.sdk .sl_WlanSet])
      else (s2.1, ([] : List Event))
    let s4 :=
      if s3.1 = 0 then
        if pxNetworkParams.xSecurity ≠ WIFISecurity.eWiFiSecurityOpen then
          if pxNetworkParams.ucPasswordLength > wificonfigMAX_PASSPHRASE_LEN then
            (wifiGENERAL_INTERNAL_ERROR, ([] : List Event))
          else
            (env.setPasswordRet, [Event.sdk .sl_WlanSet])
        else (s3.1, ([] : List Event))
      else (s3.1, ([] : List Event))
    { ret := if s4.1 ≠ 0 then eWiFiFailure else eWiFiSuccess,
      state := st,
      events := Event.semTake true :: s1.2 ++ s2.2 ++ s3.2 ++ s4.2 ++
        [Event.semGive],
      out := () }
  else
    { ret := eWiFiTimeout, state := st, events := [Event.semTake false], out := () }

/-- WIFI_SetPMMode (aws_wifi.c lines 1171-1225): the three supported modes
issue one sl_WlanPolicySet; any other mode leaves the return code 0 and
reports eWiFiNotSupported; a nonzero SDK code downgrades to failure. -/
def WIFI_SetPMMode (st : WifiState) (env : SetPMModeEnv)
    (xPMModeType : WIFIPMMode) : OpResult Unit :=
  if env.takeOk then
    let r0 : WIFIReturnCode :=
      match xPMModeType with
      | .eWiFiPMNotSupported => eWiFiNotSupported
      | _ => eWiFiSuccess
    let sRetCode : Int :=
      match xPMModeType with
      | .eWiFiPMNotSupported => 0
      | _ => env.policySetRet
    let es0 : List Event :=
      match xPMModeType with
      | .eWiFiPMNotSupported => []
      | _ => [Event.sdk .sl_WlanPolicySet]
    { ret := if sRetCode ≠ 0 then eWiFiFailure else r0,
      state := st,
      events := Event.semTake true :: es0 ++ [Event.semGive],
      out := () }
  else
    { ret := eWiFiTimeout, state := st, events := [Event.semTake false], out := () }

/-- WIFI_GetPMMode (aws_wifi.c lines 1229-1287). -/
def WIFI_GetPMMode (st : WifiState) (env : GetPMModeEnv)
    (pmModeIn : WIFIPMMode) : OpResult WIFIPMMode :=
  if env.takeOk then
    if env.policyGetRet ≠ 0 then
      { ret := eWiFiFailure, state := st,
        events := [Event.semTake true, Event.sdk .sl_WlanPolicyGet, Event.semGive],
        out := pmModeIn }
    else
      { ret := eWiFiSuccess, state := st,
        events := [Event.semTake true, Event.sdk .sl_WlanPolicyGet, Event.semGive],
        out :=
          if env.policy = SL_WLAN_NORMAL_POLICY then .eWiFiPMNormal
          else if env.policy = SL_WLAN_LOW_POWER_POLICY then .eWiFiPMLowPower
          else if env.policy = SL_WLAN_ALWAYS_ON_POLICY then .eWiFiPMAlwaysOn
          else .eWiFiPMNotSupported }
  else
    { ret := eWiFiTimeout, state := st, events := [Event.semTake false],
      out := pmModeIn }

/-- WIFI_IsConnected (aws_wifi.c lines 1290-1299): returns a BaseType_t, not
a WIFIReturnCode_t; queries Network_IF_CurrentMCUState without the
semaphore. -/
def WIFI_IsConnected (st : WifiState) (env : IsConnectedEnv) :
    Bool × WifiState × List Event :=
  (env.connected, st, [Event.sdk .Network_IF_CurrentMCUState])

/-- WIFI_RegisterNetworkStateChangeEventCallback (aws_wifi.c lines
1301-1305): unconditionally unsupported. -/
def WIFI_RegisterNetworkStateChangeEventCallback (st : WifiState) : OpResult Unit :=
  { ret := eWiFiNotSupported, state := st, events := [], out := () }

/-- One invocation of a public WIFI_ operation, carrying its environment and
inputs. -/
inductive OpCall where
  | onCall (env : OnEnv)
  | offCall (env : OffEnv)
  | connectAP (env : ConnectEnv) (p : WIFINetworkParams)
  | disconnect (env : DisconnectEnv)
  | reset (env : ResetEnv)
  | setMode (env : SetModeEnv) (m : WIFIDeviceMode)
  | getMode (env : GetModeEnv) (mIn : WIFIDeviceMode)
  | networkAdd (env : NetworkAddEnv) (profile : WIFINetworkProfile) (indexIn : Nat)
  | networkGet (env : NetworkGetEnv) (profileIn : WIFINetworkProfile) (usIndex : Nat)
  | networkDelete (env : NetworkDeleteEnv) (usIndex : Nat)
  | ping (buf : List Nat) (usCount : Nat) (ulIntervalMS : Nat)
  | getIP (env : GetIPEnv) (buf : List Nat)
  | getMAC (env : GetMACEnv) (buf : List Nat)
  | getHostIP (env : GetHostIPEnv) (host : List Nat) (buf : List Nat)
  | scan (env : ScanEnv) (buf : List WIFIScanResult) (n : Nat)
  | startAP
  | stopAP
  | configureAP (env : ConfigureAPEnv) (p : WIFINetworkParams)
  | setPMMode (env : SetPMModeEnv) (m : WIFIPMMode)
  | getPMMode (env : GetPMModeEnv) (mIn : WIFIPMMode)
  | isConnected (env : IsConnectedEnv)
  | registerNetworkStateChangeEventCallback
deriving DecidableEq, Repr

/-- Observable outcome of one invocation: the WIFIReturnCode_t (none for
WIFI_IsConnected, whose return type is BaseType_t), the module state on
exit and the event trace. -/
structure StepResult where
  retCode : Option WIFIReturnCode
  state : WifiState
  events : List Event
deriving DecidableEq, Repr

/-- Dispatch one invocation of a public WIFI_ operation. -/
def step (st : WifiState) (c : OpCall) : StepResult :=
  match c with
  | .onCall env =>
    let r := WIFI_On st env
    { retCode := some r.ret, state := r.state, events := r.events }
  | .offCall env =>
    let r := WIFI_Off st env
    { retCode := some r.ret, state := r.state, events := r.events }
  | .connectAP env p =>
    let r := WIFI_ConnectAP st env p
    { retCode := some r.ret, state := r.state, events := r.events }
  | .disconnect env =>
    let r := WIFI_Disconnect st env
    { retCode := some r.ret, state := r.state, events := r.events }
  | .reset env =>
    let r := WIFI_Reset st env
    { retCode := some r.ret, state := r.state, events := r.events }
  | .setMode env m =>
    let r := WIFI_SetMode st env m
    { retCode := some r.ret, state := r.state, events := r.events }
  | .getMode env mIn =>
    let r := WIFI_GetMode st env mIn
    { retCode := some r.ret, state := r.state, events := r.events }
  | .networkAdd env profile indexIn =>
    let r := WIFI_NetworkAdd st env profile indexIn
    { retCode := some r.ret, state := r.state, events := r.events }
  | .networkGet env profileIn usIndex =>
    let r := WIFI_NetworkGet st env profileIn usIndex
    { retCode := some r.ret, state := r.state, events := r.events }
  | .networkDelete env usIndex =>
    let r := WIFI_NetworkDelete st env usIndex
    { retCode := some r.ret, state := r.state, events := r.events }
  | .ping buf usCount ulIntervalMS =>
    let r := WIFI_Ping st buf usCount ulIntervalMS
    { retCode := some r.ret, state := r.state, events := r.events }
  | .getIP env buf =>
    let r := WIFI_GetIP st env buf
    { retCode := some r.ret, state := r.state, events := r.events }
  | .getMAC env buf =>
    let r := WIFI_GetMAC st env buf
    { retCode := some r.ret, state := r.state, events := r.events }
  | .getHostIP env host buf =>
    let r := WIFI_GetHostIP st env host buf
    { retCode := some r.ret, state := r.state, events := r.events }
  | .scan env buf n =>
    let r := WIFI_Scan st env buf n
    { retCode := some r.ret, state := r.state, events := r.events }
  | .startAP =>
    let r := WIFI_StartAP st
    { retCode := some r.ret, state := r.state, events := r.events }
  | .stopAP =>
    let r := WIFI_StopAP st
    { retCode := some r.ret, state := r.state, events := r.events }
  | .configureAP env p =>
    let r := WIFI_ConfigureAP st env p
    { retCode := some r.ret, state := r.state, events := r.events }
  | .setPMMode env m =>
    let r := WIFI_SetPMMode st env m
    { retCode := some r.ret, state := r.state, events := r.events }
  | .getPMMode env mIn =>
    let r := WIFI_GetPMMode st env mIn
    { retCode := some r.ret, state := r.state, events := r.events }
  | .isConnected env =>
    let r := WIFI_IsConnected st env
    { retCode := none, state := r.2.1, events := r.2.2 }
  | .registerNetworkStateChangeEventCallback =>
    let r := WIFI_RegisterNetworkStateChangeEventCallback st
    { retCode := some r.ret, state := r.state, events := r.events }

/-- Run a sequence of API calls, threading the module state and
concatenating the event traces. -/
def run (st : WifiState) : List OpCall → WifiState × List Event
  | [] => (st, [])
  | c :: cs =>
    let r := step st c
    let rest := run r.state cs
    (rest.1, r.events ++ rest.2)

/-- A trace respects the locking discipline when every SDK call happens
while the semaphore is held; the Bool argument is whether the semaphore is
held at the start of the trace. -/
def sdkCallsGuarded : Bool → List Event → Bool
  | _, [] => true
  | held, Event.semCreate :: es => sdkCallsGuarded held es
  | held, Event.semTake ok :: es => sdkCallsGuarded (held || ok) es
  | _, Event.semGive :: es => sdkCallsGuarded false es
  | held, Event.sdk _ :: es => held && sdkCallsGuarded held es

/-- Whether the semaphore is held after the trace, starting from the given
holding state. -/
def semHeldAfter : Bool → List Event → Bool
  | held, [] => held
  | held, Event.semCreate :: es => semHeldAfter held es
  | held, Event.semTake ok :: es => semHeldAfter (held || ok) es
  | _, Event.semGive :: es => semHeldAfter false es
  | held, Event.sdk _ :: es => semHeldAfter held es

/-- Number of successful semaphore takes in a trace. -/
def takeSuccessCount (es : List Event) : Nat :=
  es.count (Event.semTake true)

/-- Number of semaphore gives in a trace. -/
def giveCount (es : List Event) : Nat :=
  es.count Event.semGive

/-- Number of semaphore creations in a trace. -/
def semCreateCount (es : List Event) : Nat :=
  es.count Event.semCreate

/-- Number of SDK calls in a trace. -/
def sdkCallCount (es : List Event) : Nat :=
  es.countP fun e => match e with | Event.sdk _ => true | _ => false

/-- The twelve semaphore-guarded operations of the adapter. -/
def isSemGuardedCall : OpCall → Bool
  | .connectAP _ _ => true
  | .disconnect _ => true
  | .reset _ => true
  | .setMode _ _ => true
  | .getMode _ _ => true
  | .networkAdd _ _ _ => true
  | .networkGet _ _ _ => true
  | .networkDelete _ _ => true
  | .scan _ _ _ => true
  | .configureAP _ _ => true
  | .setPMMode _ _ => true
  | .getPMMode _ _ => true
  | _ => false

/-- Whether the invocation is a WIFI_On call. -/
def isOnCall : OpCall → Bool
  | .onCall _ => true
  | _ => false

/-- C2: the claim as stated is false at eWiFiSecurityWPA:
prvConvertSecurityAbstractedToTI maps it to a TI constant other than
wificonfigSEC_TYPE_UNKNOWN, but converting that TI constant back with
prvConvertSecurityTIToAbstracted yields eWiFiSecurityWPA2, not the original
eWiFiSecurityWPA, because the deprecated SL_WLAN_SEC_TYPE_WPA has the same
value as SL_WLAN_SEC_TYPE_WPA_WPA2. -/
theorem security_wpa_roundtrip_not_identity :
    prvConvertSecurityAbstractedToTI WIFISecurity.eWiFiSecurityWPA ≠
      wificonfigSEC_TYPE_UNKNOWN ∧
    prvConvertSecurityTIToAbstracted
        (prvConvertSecurityAbstractedToTI WIFISecurity.eWiFiSecurityWPA) ≠
      WIFISecurity.eWiFiSecurityWPA := by
  decide

/-- C2 (amended): the two security translation tables are mutually inverse
on eWiFiSecurityOpen, eWiFiSecurityWEP and eWiFiSecurityWPA2;
eWiFiSecurityWPA maps to the same TI constant as eWiFiSecurityWPA2 (the
deprecated SL_WLAN_SEC_TYPE_WPA equals SL_WLAN_SEC_TYPE_WPA_WPA2) and
therefore round-trips to eWiFiSecurityWPA2; eWiFiSecurityNotSupported is the
only abstracted type mapped to wificonfigSEC_TYPE_UNKNOWN. -/
theorem security_conversion_roundtrip_amended :
    prvConvertSecurityTIToAbstracted
        (prvConvertSecurityAbstractedToTI WIFISecurity.eWiFiSecurityOpen) =
      WIFISecurity.eWiFiSecurityOpen ∧
    prvConvertSecurityTIToAbstracted
        (prvConvertSecurityAbstractedToTI WIFISecurity.eWiFiSecurityWEP) =
      WIFISecurity.eWiFiSecurityWEP ∧
    prvConvertSecurityTIToAbstracted
        (prvConvertSecurityAbstractedToTI WIFISecurity.eWiFiSecurityWPA2) =
      WIFISecurity.eWiFiSecurityWPA2 ∧
    prvConvertSecurityAbstractedToTI WIFISecurity.eWiFiSecurityWPA =
      SL_WLAN_SEC_TYPE_WPA_WPA2 ∧
    prvConvertSecurityTIToAbstracted
        (prvConvertSecurityAbstractedToTI WIFISecurity.eWiFiSecurityWPA) =
      WIFISecurity.eWiFiSecurityWPA2 ∧
    (∀ s : WIFISecurity,
      prvConvertSecurityAbstractedToTI s = wificonfigSEC_TYPE_UNKNOWN ↔
        s = WIFISecurity.eWiFiSecurityNotSupported) := by
  refine ⟨by decide, by decide, by decide, by decide, by decide, fun s => ?_⟩
  cases s <;> decide

/-- C6: converting eWiFiModeStation, eWiFiModeAP and eWiFiModeP2P to the TI
role with prvConvertRoleAbstractedToTI and back with
prvConvertRoleTypeTIToAbstracted yields the original mode, and every other
abstracted mode (only eWiFiModeNotSupported) maps to ROLE_RESERVED. -/
theorem role_conversion_roundtrip :
    prvConvertRoleTypeTIToAbstracted
        (prvConvertRoleAbstractedToTI WIFIDeviceMode.eWiFiModeStation) =
      WIFIDeviceMode.eWiFiModeStation ∧
    prvConvertRoleTypeTIToAbstracted
        (prvConvertRoleAbstractedToTI WIFIDeviceMode.eWiFiModeAP) =
      WIFIDeviceMode.eWiFiModeAP ∧
    prvConvertRoleTypeTIToAbstracted
        (prvConvertRoleAbstractedToTI WIFIDeviceMode.eWiFiModeP2P) =
      WIFIDeviceMode.eWiFiModeP2P ∧
    (∀ m : WIFIDeviceMode,
      m ≠ WIFIDeviceMode.eWiFiModeStation → m ≠ WIFIDeviceMode.eWiFiModeAP →
      m ≠ WIFIDeviceMode.eWiFiModeP2P →
        prvConvertRoleAbstractedToTI m = ROLE_RESERVED) := by
  refine ⟨by decide, by decide, by decide, fun m h1 h2 h3 => ?_⟩
  cases m
  · exact absurd rfl h1
  · exact absurd rfl h2
  · exact absurd rfl h3
  · decide

/-- C8: WIFI_Ping, WIFI_StartAP, WIFI_StopAP and
WIFI_RegisterNetworkStateChangeEventCallback return eWiFiNotSupported for
every input, perform no SDK call and no semaphore operation, and leave the
module state and the caller-supplied buffer unchanged. -/
theorem unsupported_ops_return_not_supported (st : WifiState)
    (buf : List Nat) (usCount ulIntervalMS : Nat) :
    WIFI_Ping st buf usCount ulIntervalMS =
      { ret := eWiFiNotSupported, state := st, events := [], out := buf } ∧
    WIFI_StartAP st =
      { ret := eWiFiNotSupported, state := st, events := [], out := () } ∧
    WIFI_StopAP st =
      { ret := eWiFiNotSupported, state := st, events := [], out := () } ∧
    WIFI_RegisterNetworkStateChangeEventCallback st =
      { ret := eWiFiNotSupported, state := st, events := [], out := () } :=
  ⟨rfl, rfl, rfl, rfl⟩

/-- C9: when WIFI_ConnectAP obtains the semaphore and the network parameter
block has an over-long SSID or a security type translating to
wificonfigSEC_TYPE_UNKNOWN, it returns eWiFiFailure and never calls
Network_IF_ConnectAP. -/
theorem connectAP_invalid_params_fail_without_sdk_connect (st : WifiState)
    (env : ConnectEnv) (p : WIFINetworkParams) (htake : env.takeOk = true)
    (h : wificonfigMAX_SSID_LEN < p.ucSSIDLength ∨
      prvConvertSecurityAbstractedToTI p.xSecurity = wificonfigSEC_TYPE_UNKNOWN) :
    (WIFI_ConnectAP st env p).ret = eWiFiFailure ∧
    Event.sdk SdkFn.Network_IF_ConnectAP ∉ (WIFI_ConnectAP st env p).events := by
  rcases h with h | h
  · have hlen : ¬ p.ucSSIDLength ≤ wificonfigMAX_SSID_LEN := by omega
    simp [WIFI_ConnectAP, htake, hlen, wifiGENERAL_INTERNAL_ERROR]
  · simp only [WIFI_ConnectAP, htake, if_true]
    rcases le_or_lt p.ucSSIDLength wificonfigMAX_SSID_LEN with hle | hlt
    · simp [hle, h, wifiGENERAL_INTERNAL_ERROR]
    · have hlen : ¬ p.ucSSIDLength ≤ wificonfigMAX_SSID_LEN := by omega
      simp [hlen, wifiGENERAL_INTERNAL_ERROR]

/-- C9 witness: a parameter block with SSID length 33 under a successful
semaphore take. -/
theorem connectAP_invalid_params_fail_without_sdk_connect_witness :
    (WIFI_ConnectAP ⟨true, true⟩ ⟨true, 0⟩
        ⟨[], 33, [], 0, WIFISecurity.eWiFiSecurityOpen, 1⟩).ret = eWiFiFailure ∧
    Event.sdk SdkFn.Network_IF_ConnectAP ∉
      (WIFI_ConnectAP ⟨true, true⟩ ⟨true, 0⟩
        ⟨[], 33, [], 0, WIFISecurity.eWiFiSecurityOpen, 1⟩).events :=
  connectAP_invalid_params_fail_without_sdk_connect ⟨true, true⟩ ⟨true, 0⟩
    ⟨[], 33, [], 0, WIFISecurity.eWiFiSecurityOpen, 1⟩ rfl (Or.inl (by decide))

/-- C10: whenever WIFI_NetworkGet returns eWiFiSuccess it sets the returned
profile's ucPasswordLength to 0 and leaves the caller's cPassword buffer
exactly as it was: the stored credential is never copied out. -/
theorem networkGet_does_not_disclose_password (st : WifiState)
    (env : NetworkGetEnv) (profileIn : WIFINetworkProfile) (usIndex : Nat)
    (h : (WIFI_NetworkGet st env profileIn usIndex).ret = eWiFiSuccess) :
    (WIFI_NetworkGet st env profileIn usIndex).out.ucPasswordLength = 0 ∧
    (WIFI_NetworkGet st env profileIn usIndex).out.cPassword =
      profileIn.cPassword := by
  unfold WIFI_NetworkGet at h ⊢
  split_ifs at h ⊢
  all_goals simp_all

/-- C10 witness: a successful profile read. -/
theorem networkGet_does_not_disclose_password_witness :
    (WIFI_NetworkGet ⟨true, true⟩ ⟨true, 0, [1, 2], 2, [3], 0⟩
        ⟨[], 0, [9, 9], 2, [], WIFISecurity.eWiFiSecurityOpen⟩ 0).out.ucPasswordLength
      = 0 ∧
    (WIFI_NetworkGet ⟨true, true⟩ ⟨true, 0, [1, 2], 2, [3], 0⟩
        ⟨[], 0, [9, 9], 2, [], WIFISecurity.eWiFiSecurityOpen⟩ 0).out.cPassword
      = [9, 9] :=
  networkGet_does_not_disclose_password ⟨true, true⟩ ⟨true, 0, [1, 2], 2, [3], 0⟩
    ⟨[], 0, [9, 9], 2, [], WIFISecurity.eWiFiSecurityOpen⟩ 0 (by decide)

/-- Helper: WIFI_ConnectAP performs SDK calls only while holding the
semaphore. -/
theorem connectAP_sdk_guarded (st : WifiState) (env : ConnectEnv)
    (p : WIFINetworkParams) :
    sdkCallsGuarded false (WIFI_ConnectAP st env p).events = true := by
  simp only [WIFI_ConnectAP]
  split_ifs <;> rfl

/-- Helper: WIFI_Disconnect performs SDK calls only while holding the
semaphore. -/
theorem disconnect_sdk_guarded (st : WifiState) (env : DisconnectEnv) :
    sdkCallsGuarded false (WIFI_Disconnect st env).events = true := by
  simp only [WIFI_Disconnect]
  split_ifs <;> rfl

/-- Helper: WIFI_Reset performs SDK calls only while holding the
semaphore. -/
theorem reset_sdk_guarded (st : WifiState) (env : ResetEnv) :
    sdkCallsGuarded false (WIFI_Reset st env).events = true := by
  simp only [WIFI_Reset]
  split_ifs <;> rfl

/-- Helper: WIFI_SetMode performs SDK calls only while holding the
semaphore. -/
theorem setMode_sdk_guarded (st : WifiState) (env : SetModeEnv)
    (m : WIFIDeviceMode) :
    sdkCallsGuarded false (WIFI_SetMode st env m).events = true := by
  simp only [WIFI_SetMode]
  split_ifs <;> rfl

/-- Helper: WIFI_GetMode performs SDK calls only while holding the
semaphore. -/
theorem getMode_sdk_guarded (st : WifiState) (env : GetModeEnv)
    (mIn : WIFIDeviceMode) :
    sdkCallsGuarded false (WIFI_GetMode st env mIn).events = true := by
  simp only [WIFI_GetMode]
  split_ifs <;> rfl

/-- Helper: WIFI_NetworkAdd performs SDK calls only while holding the
semaphore. -/
theorem networkAdd_sdk_guarded (st : WifiState) (env : NetworkAddEnv)
    (profile : WIFINetworkProfile) (indexIn : Nat) :
    sdkCallsGuarded false (WIFI_NetworkAdd st env profile indexIn).events = true := by
  simp only [WIFI_NetworkAdd]
  split_ifs <;> rfl

/-- Helper: WIFI_NetworkGet performs SDK calls only while holding the
semaphore. -/
theorem networkGet_sdk_guarded (st : WifiState) (env : NetworkGetEnv)
    (profileIn : WIFINetworkProfile) (usIndex : Nat) :
    sdkCallsGuarded false (WIFI_NetworkGet st env profileIn usIndex).events = true := by
  simp only [WIFI_NetworkGet]
  split_ifs <;> rfl

/-- Helper: WIFI_NetworkDelete performs SDK calls only while holding the
semaphore. -/
theorem networkDelete_sdk_guarded (st : WifiState) (env : NetworkDeleteEnv)
    (usIndex : Nat) :
    sdkCallsGuarded false (WIFI_NetworkDelete st env usIndex).events = true := by
  simp only [WIFI_NetworkDelete]
  split_ifs <;> rfl

/-- Helper: WIFI_Scan performs SDK calls only while holding the
semaphore. -/
theorem scan_sdk_guarded (st : WifiState) (env : ScanEnv)
    (buf : List WIFIScanResult) (n : Nat) :
    sdkCallsGuarded false (WIFI_Scan st env buf n).events = true := by
  simp only [WIFI_Scan, prvStartScan, prvStopScan]
  split_ifs <;> rfl

/-- Helper: WIFI_ConfigureAP performs SDK calls only while holding the
semaphore. -/
theorem configureAP_sdk_guarded (st : WifiState) (env : ConfigureAPEnv)
    (p : WIFINetworkParams) :
    sdkCallsGuarded false (WIFI_ConfigureAP st env p).events = true := by
  simp only [WIFI_ConfigureAP]
  split_ifs <;> rfl

/-- Helper: WIFI_SetPMMode performs SDK calls only while holding the
semaphore. -/
theorem setPMMode_sdk_guarded (st : WifiState) (env : SetPMModeEnv)
    (m : WIFIPMMode) :
    sdkCallsGuarded false (WIFI_SetPMMode st env m).events = true := by
  cases m <;> (simp only [WIFI_SetPMMode]; split_ifs <;> rfl)

/-- Helper: WIFI_GetPMMode performs SDK calls only while holding the
semaphore. -/
theorem getPMMode_sdk_guarded (st : WifiState) (env : GetPMModeEnv)
    (pmIn : WIFIPMMode) :
    sdkCallsGuarded false (WIFI_GetPMMode st env pmIn).events = true := by
  simp only [WIFI_GetPMMode]
  split_ifs <;> rfl

/-- C1 counterexample: WIFI_Off is a public WIFI_ operation that invokes SDK
entry points (Network_IF_DisconnectFromAP and sl_Stop) without first taking
xWiFiSemaphoreHandle, so its trace violates the locking discipline even when
the module is fully initialized. -/
theorem off_calls_sdk_without_semaphore :
    sdkCallsGuarded false (step ⟨true, true⟩ (OpCall.offCall ⟨0⟩)).events = false := by
  decide

/-- C1 (amended): the twelve semaphore-guarded operations (WIFI_ConnectAP,
WIFI_Disconnect, WIFI_Reset, WIFI_SetMode, WIFI_GetMode, WIFI_NetworkAdd,
WIFI_NetworkGet, WIFI_NetworkDelete, WIFI_Scan, WIFI_ConfigureAP,
WIFI_SetPMMode, WIFI_GetPMMode) invoke SDK entry points only while the
binary semaphore is held; WIFI_On, WIFI_Off, WIFI_GetIP, WIFI_GetMAC and
WIFI_IsConnected call into the SDK without taking the semaphore at all. -/
theorem guarded_ops_call_sdk_only_with_semaphore (st : WifiState) (c : OpCall)
    (h : isSemGuardedCall c = true) :
    sdkCallsGuarded false (step st c).events = true := by
  cases c
  case connectAP env p => simpa [step] using connectAP_sdk_guarded st env p
  case disconnect env => simpa [step] using disconnect_sdk_guarded st env
  case reset env => simpa [step] using reset_sdk_guarded st env
  case setMode env m => simpa [step] using setMode_sdk_guarded st env m
  case getMode env mIn => simpa [step] using getMode_sdk_guarded st env mIn
  case networkAdd env profile indexIn =>
    simpa [step] using networkAdd_sdk_guarded st env profile indexIn
  case networkGet env profileIn usIndex =>
    simpa [step] using networkGet_sdk_guarded st env profileIn usIndex
  case networkDelete env usIndex =>
    simpa [step] using networkDelete_sdk_guarded st env usIndex
  case scan env buf n => simpa [step] using scan_sdk_guarded st env buf n
  case configureAP env p => simpa [step] using configureAP_sdk_guarded st env p
  case setPMMode env m => simpa [step] using setPMMode_sdk_guarded st env m
  case getPMMode env mIn => simpa [step] using getPMMode_sdk_guarded st env mIn
  all_goals simp [isSemGuardedCall] at h

/-- C1 witness: WIFI_ConnectAP with a successful take respects the
discipline. -/
theorem guarded_ops_call_sdk_only_with_semaphore_witness :
    sdkCallsGuarded false
      (step ⟨true, true⟩ (OpCall.connectAP ⟨true, 0⟩
        ⟨[1], 1, [2], 1, WIFISecurity.eWiFiSecurityWPA2, 6⟩)).events = true :=
  guarded_ops_call_sdk_only_with_semaphore ⟨true, true⟩
    (OpCall.connectAP ⟨true, 0⟩ ⟨[1], 1, [2], 1, WIFISecurity.eWiFiSecurityWPA2, 6⟩)
    rfl

/-- C7: every public operation other than WIFI_On leaves the module globals
xWIFIInitDone and xWiFiSemaphoreHandle exactly as they were, and in its
trace every successfully taken semaphore is given back exactly once, with
the semaphore no longer held when the operation returns. -/
theorem non_on_ops_preserve_globals (st : WifiState) (c : OpCall)
    (h : isOnCall c = false) :
    (step st c).state = st ∧
    giveCount (step st c).events = takeSuccessCount (step st c).events ∧
    takeSuccessCount (step st c).events ≤ 1 ∧
    semHeldAfter false (step st c).events = false := by
  cases c
  case onCall env => simp [isOnCall] at h
  case setPMMode env m =>
    cases m <;> (simp only [step, WIFI_SetPMMode]; split_ifs <;>
      exact ⟨rfl, of_decide_eq_true rfl, of_decide_eq_true rfl,
        of_decide_eq_true rfl⟩)
  all_goals
    simp only [step, WIFI_Off, WIFI_ConnectAP, WIFI_Disconnect, WIFI_Reset,
      WIFI_SetMode, WIFI_GetMode, WIFI_NetworkAdd, WIFI_NetworkGet,
      WIFI_NetworkDelete, WIFI_Ping, WIFI_GetIP, WIFI_GetMAC, WIFI_GetHostIP,
      WIFI_Scan, WIFI_StartAP, WIFI_StopAP, WIFI_ConfigureAP, WIFI_GetPMMode,
      WIFI_IsConnected, WIFI_RegisterNetworkStateChangeEventCallback,
      prvStartScan, prvStopScan]
  all_goals try split_ifs
  all_goals refine ⟨?_, of_decide_eq_true rfl, of_decide_eq_true rfl,
    of_decide_eq_true rfl⟩
  all_goals first | rfl | trivial

/-- C7 witness: WIFI_ConfigureAP on a fully initialized module with a
successful take. -/
theorem non_on_ops_preserve_globals_witness :
    (step ⟨true, true⟩ (OpCall.configureAP ⟨true, 0, 0, 0, 0⟩
      ⟨[1], 1, [2], 1, WIFISecurity.eWiFiSecurityWPA2, 6⟩)).state = ⟨true, true⟩ ∧
    giveCount (step ⟨true, true⟩ (OpCall.configureAP ⟨true, 0, 0, 0, 0⟩
      ⟨[1], 1, [2], 1, WIFISecurity.eWiFiSecurityWPA2, 6⟩)).events =
      takeSuccessCount (step ⟨true, true⟩ (OpCall.configureAP ⟨true, 0, 0, 0, 0⟩
        ⟨[1], 1, [2], 1, WIFISecurity.eWiFiSecurityWPA2, 6⟩)).events ∧
    takeSuccessCount (step ⟨true, true⟩ (OpCall.configureAP ⟨true, 0, 0, 0, 0⟩
      ⟨[1], 1, [2], 1, WIFISecurity.eWiFiSecurityWPA2, 6⟩)).events ≤ 1 ∧
    semHeldAfter false (step ⟨true, true⟩ (OpCall.configureAP ⟨true, 0, 0, 0, 0⟩
      ⟨[1], 1, [2], 1, WIFISecurity.eWiFiSecurityWPA2, 6⟩)).events = false :=
  non_on_ops_preserve_globals ⟨true, true⟩
    (OpCall.configureAP ⟨true, 0, 0, 0, 0⟩
      ⟨[1], 1, [2], 1, WIFISecurity.eWiFiSecurityWPA2, 6⟩) rfl

/-- C5: every public WIFI_ operation that returns a WIFIReturnCode_t (all of
them except WIFI_IsConnected, which returns a BaseType_t) returns a value in
the fixed set containing eWiFiSuccess, eWiFiFailure, eWiFiTimeout and
eWiFiNotSupported; WIFIReturnCode_t in this version has exactly those four
enumerators and every adapter path assigns only these constants. -/
theorem wifi_ops_return_fixed_status_set (st : WifiState) (c : OpCall)
    (r : WIFIReturnCode) (h : (step st c).retCode = some r) :
    r = eWiFiSuccess ∨ r = eWiFiFailure ∨ r = eWiFiTimeout ∨
      r = eWiFiNotSupported := by
  cases r <;> simp

/-- C5 witness: WIFI_StartAP returns eWiFiNotSupported, a member of the
fixed status set. -/
theorem wifi_ops_return_fixed_status_set_witness :
    eWiFiNotSupported = eWiFiSuccess ∨ eWiFiNotSupported = eWiFiFailure ∨
      eWiFiNotSupported = eWiFiTimeout ∨ eWiFiNotSupported = eWiFiNotSupported :=
  wifi_ops_return_fixed_status_set ⟨false, false⟩ OpCall.startAP
    eWiFiNotSupported rfl

/-- C4 counterexample: WIFI_SetMode with eWiFiModeNotSupported (which
converts to ROLE_RESERVED) returns eWiFiFailure, not eWiFiTimeout, in an
environment where the semaphore cannot be obtained, because the mode check
fails before the semaphore is even attempted. -/
theorem setMode_invalid_mode_not_timeout :
    (WIFI_SetMode ⟨true, true⟩ ⟨false, 0⟩
      WIFIDeviceMode.eWiFiModeNotSupported).ret = eWiFiFailure ∧
    (WIFI_SetMode ⟨true, true⟩ ⟨false, 0⟩
      WIFIDeviceMode.eWiFiModeNotSupported).ret ≠ eWiFiTimeout := by
  decide

/-- C4 (amended): for each semaphore-guarded operation and every input on
which the operation attempts the semaphore (all inputs except a WIFI_SetMode
argument converting to ROLE_RESERVED, which returns eWiFiFailure without
attempting the take), failure to obtain the semaphore within
xSemaphoreWaitTicks yields eWiFiTimeout with no SDK call, unchanged module
state, and unchanged caller-supplied out-parameters. -/
theorem semaphore_timeout_frame (st : WifiState) (p pCfg : WIFINetworkParams)
    (profile profileIn : WIFINetworkProfile)
    (eC : ConnectEnv) (eD : DisconnectEnv) (eR : ResetEnv) (eSM : SetModeEnv)
    (eGM : GetModeEnv) (eNA : NetworkAddEnv) (eNG : NetworkGetEnv)
    (eND : NetworkDeleteEnv) (eS : ScanEnv) (eCA : ConfigureAPEnv)
    (eSP : SetPMModeEnv) (eGP : GetPMModeEnv)
    (m mIn : WIFIDeviceMode) (pm pmIn : WIFIPMMode) (indexIn usIndex n : Nat)
    (buf : List WIFIScanResult)
    (hC : eC.takeOk = false) (hD : eD.takeOk = false) (hR : eR.takeOk = false)
    (hSM : eSM.takeOk = false) (hGM : eGM.takeOk = false)
    (hNA : eNA.takeOk = false) (hNG : eNG.takeOk = false)
    (hND : eND.takeOk = false) (hS : eS.takeOk = false)
    (hCA : eCA.takeOk = false) (hSP : eSP.takeOk = false)
    (hGP : eGP.takeOk = false)
    (hm : prvConvertRoleAbstractedToTI m ≠ ROLE_RESERVED) :
    WIFI_ConnectAP st eC p =
      { ret := eWiFiTimeout, state := st, events := [Event.semTake false],
        out := () } ∧
    WIFI_Disconnect st eD =
      { ret := eWiFiTimeout, state := st, events := [Event.semTake false],
        out := () } ∧
    WIFI_Reset st eR =
      { ret := eWiFiTimeout, state := st, events := [Event.semTake false],
        out := () } ∧
    WIFI_SetMode st eSM m =
      { ret := eWiFiTimeout, state := st, events := [Event.semTake false],
        out := () } ∧
    WIFI_GetMode st eGM mIn =
      { ret := eWiFiTimeout, state := st, events := [Event.semTake false],
        out := mIn } ∧
    WIFI_NetworkAdd st eNA profile indexIn =
      { ret := eWiFiTimeout, state := st, events := [Event.semTake false],
        out := indexIn } ∧
    WIFI_NetworkGet st eNG profileIn usIndex =
      { ret := eWiFiTimeout, state := st, events := [Event.semTake false],
        out := profileIn } ∧
    WIFI_NetworkDelete st eND usIndex =
      { ret := eWiFiTimeout, state := st, events := [Event.semTake false],
        out := () } ∧
    WIFI_Scan st eS buf n =
      { ret := eWiFiTimeout, state := st, events := [Event.semTake false],
        out := buf } ∧
    WIFI_ConfigureAP st eCA pCfg =
      { ret := eWiFiTimeout, state := st, events := [Event.semTake false],
        out := () } ∧
    WIFI_SetPMMode st eSP pm =
      { ret := eWiFiTimeout, state := st, events := [Event.semTake false],
        out := () } ∧
    WIFI_GetPMMode st eGP pmIn =
      { ret := eWiFiTimeout, state := st, events := [Event.semTake false],
        out := pmIn } := by
  refine ⟨?_, ?_, ?_, ?_, ?_, ?_, ?_, ?_, ?_, ?_, ?_, ?_⟩
  · simp [WIFI_ConnectAP, hC]
  · simp [WIFI_Disconnect, hD]
  · simp [WIFI_Reset, hR]
  · simp [WIFI_SetMode, hSM, hm]
  · simp [WIFI_GetMode, hGM]
  · simp [WIFI_NetworkAdd, hNA]
  · simp [WIFI_NetworkGet, hNG]
  · simp [WIFI_NetworkDelete, hND]
  · simp [WIFI_Scan, hS]
  · simp [WIFI_ConfigureAP, hCA]
  · simp [WIFI_SetPMMode, hSP]
  · simp [WIFI_GetPMMode, hGP]

/-- C4 witness: WIFI_ConnectAP under a failed semaphore take at concrete
inputs. -/
theorem semaphore_timeout_frame_witness :
    WIFI_ConnectAP ⟨true, true⟩ ⟨false, 0⟩
        ⟨[1], 1, [2], 1, WIFISecurity.eWiFiSecurityWPA2, 6⟩ =
      { ret := eWiFiTimeout, state := ⟨true, true⟩,
        events := [Event.semTake false], out := () } :=
  (semaphore_timeout_frame ⟨true, true⟩
    ⟨[1], 1, [2], 1, WIFISecurity.eWiFiSecurityWPA2, 6⟩
    ⟨[1], 1, [2], 1, WIFISecurity.eWiFiSecurityWPA2, 6⟩ default default
    ⟨false, 0⟩ ⟨false, 0⟩ ⟨false, 0⟩ ⟨false, 0⟩ ⟨false, 0⟩ ⟨false, 0⟩
    ⟨false, 0, [], 0, [], 0⟩ ⟨false, 0⟩ ⟨false, 0, 0, false, []⟩
    ⟨false, 0, 0, 0, 0⟩ ⟨false, 0⟩ ⟨false, 0, 0⟩
    WIFIDeviceMode.eWiFiModeStation WIFIDeviceMode.eWiFiModeStation
    WIFIPMMode.eWiFiPMNormal WIFIPMMode.eWiFiPMNormal 0 0 0 []
    rfl rfl rfl rfl rfl rfl rfl rfl rfl rfl rfl rfl (by decide)).1

/-- Helper: once xWIFIInitDone is set, a single step of any operation keeps
it set, leaves the semaphore handle alone, and creates no semaphore. -/
theorem step_after_init_done (st : WifiState) (c : OpCall)
    (h : st.xWIFIInitDone = true) :
    (step st c).state.xWIFIInitDone = true ∧
    (step st c).state.semaphoreCreated = st.semaphoreCreated ∧
    semCreateCount (step st c).events = 0 := by
  cases c
  case onCall env =>
    simp only [step, WIFI_On, h, prvResetNetworkCPU]
    split_ifs <;>
      first
        | exact ⟨h, rfl, of_decide_eq_true rfl⟩
        | simp_all
  case setPMMode env m =>
    cases m <;> (simp only [step, WIFI_SetPMMode]; split_ifs <;>
      exact ⟨h, rfl, of_decide_eq_true rfl⟩)
  all_goals
    simp only [step, WIFI_Off, WIFI_ConnectAP, WIFI_Disconnect, WIFI_Reset,
      WIFI_SetMode, WIFI_GetMode, WIFI_NetworkAdd, WIFI_NetworkGet,
      WIFI_NetworkDelete, WIFI_Ping, WIFI_GetIP, WIFI_GetMAC, WIFI_GetHostIP,
      WIFI_Scan, WIFI_StartAP, WIFI_StopAP, WIFI_ConfigureAP, WIFI_GetPMMode,
      WIFI_IsConnected, WIFI_RegisterNetworkStateChangeEventCallback,
      prvStartScan, prvStopScan]
  all_goals try split_ifs
  all_goals refine ⟨h, ?_, of_decide_eq_true rfl⟩
  all_goals first | rfl | trivial

/-- C3 counterexample: starting from the fresh module state, a first
WIFI_On whose sl_Task spawn fails leaves xWIFIInitDone unset, so a second
WIFI_On re-creates the semaphore: the two-call sequence creates the
semaphore twice, contradicting creation exactly once at the first call with
no re-creation afterwards. -/
theorem wifi_on_recreates_semaphore_after_failed_init :
    semCreateCount (run ⟨false, false⟩
      [OpCall.onCall ⟨true, false, 0, 0⟩, OpCall.onCall ⟨true, true, 0, 0⟩]).2 = 2 := by
  decide

/-- C3 (amended): a WIFI_On call from the fresh state creates the semaphore
exactly once, and once a WIFI_On call has completed initialization (set
xWIFIInitDone), every subsequent sequence of API calls keeps xWIFIInitDone
set, never re-creates the semaphore, and never destroys the handle; if the
first WIFI_On fails to spawn the sl_Task thread, however, a later WIFI_On
re-creates the semaphore. -/
theorem wifi_init_lifecycle_after_success :
    (∀ env : OnEnv,
      semCreateCount (WIFI_On ⟨false, false⟩ env).events = 1) ∧
    (∀ (st : WifiState) (cs : List OpCall), st.xWIFIInitDone = true →
      (run st cs).1.xWIFIInitDone = true ∧
      (run st cs).1.semaphoreCreated = st.semaphoreCreated ∧
      semCreateCount (run st cs).2 = 0) := by
  constructor
  · intro env
    simp only [WIFI_On, prvResetNetworkCPU]
    split_ifs <;> exact of_decide_eq_true rfl
  · intro st cs h
    induction cs generalizing st with
    | nil => exact ⟨h, rfl, rfl⟩
    | cons c cs ih =>
      obtain ⟨h1, h2, h3⟩ := step_after_init_done st c h
      obtain ⟨i1, i2, i3⟩ := ih (step st c).state h1
      refine ⟨?_, ?_, ?_⟩
      · simpa [run] using i1
      · simp only [run]
        rw [i2, h2]
      · simp only [run, semCreateCount, List.count_append]
        simp only [semCreateCount] at h3 i3
        omega

/-- C3 witness: after a fully successful first WIFI_On, a later Disconnect
and Off keep the flag set and create nothing. -/
theorem wifi_init_lifecycle_after_success_witness :
    semCreateCount (WIFI_On ⟨false, false⟩ ⟨true, true, 0, 0⟩).events = 1 ∧
    (run ⟨true, true⟩ [OpCall.disconnect ⟨true, 0⟩,
      OpCall.offCall ⟨0⟩]).1.xWIFIInitDone = true :=
  ⟨wifi_init_lifecycle_after_success.1 ⟨true, true, 0, 0⟩,
    (wifi_init_lifecycle_after_success.2 ⟨true, true⟩
      [OpCall.disconnect ⟨true, 0⟩, OpCall.offCall ⟨0⟩] rfl).1⟩

/-- C2 witness: eWiFiSecurityNotSupported is the abstracted type mapped to
wificonfigSEC_TYPE_UNKNOWN. -/
theorem security_conversion_roundtrip_amended_witness :
    prvConvertSecurityAbstractedToTI WIFISecurity.eWiFiSecurityNotSupported =
      wificonfigSEC_TYPE_UNKNOWN :=
  (security_conversion_roundtrip_amended.2.2.2.2.2
    WIFISecurity.eWiFiSecurityNotSupported).2 rfl

/-- C6 witness: eWiFiModeNotSupported, the only abstracted mode outside the
three supported ones, maps to ROLE_RESERVED. -/
theorem role_conversion_roundtrip_witness :
    prvConvertRoleAbstractedToTI WIFIDeviceMode.eWiFiModeNotSupported =
      ROLE_RESERVED :=
  role_conversion_roundtrip.2.2.2 WIFIDeviceMode.eWiFiModeNotSupported
    (by decide) (by decide) (by decide)
